import Mathlib

/-!
Shallow embedding of `bzt/modules/shellexec.py` (stage-gated shell-task
supervisor): `ShellExecutor` (stage scheduler holding `task_list`) and `Task`
(one external-process lifecycle).  Python dictionary values are modelled by
`PyVal` with Python's `==` (`pyEq`, which identifies `True` with `1` and
`False` with `0`) and truthiness (`pyTruthy`).  Process behaviour (the only
external collaborator with state) is supplied to the scheduler as explicit
poll-result environments; everything else is translated line by line from the
source.
-/

namespace Shellexec

/-- A Python value as it can appear in a task-config dictionary. -/
inductive PyVal
  | none
  | bool (b : Bool)
  | int (n : Int)
  | str (s : String)
deriving DecidableEq, Repr

/-- Numeric view used by Python `==`: `True == 1`, `False == 0`. -/
def pyNum : PyVal → Option Int
  | .bool b => some (if b then 1 else 0)
  | .int n => some n
  | _ => Option.none

/-- Python `==` on the values above: numeric types compare by value
(`True == 1`), strings by content, `None` only to `None`; cross-kind
comparisons are `False`. -/
def pyEq (a b : PyVal) : Bool :=
  match a, b with
  | .none, .none => true
  | .str s, .str t => s == t
  | a, b =>
    match pyNum a, pyNum b with
    | some m, some n => m == n
    | _, _ => false

/-- Python truthiness: `None`, `False`, `0` and `""` are falsy. -/
def pyTruthy : PyVal → Bool
  | .none => false
  | .bool b => b
  | .int n => n != 0
  | .str s => s != ""

/-- String content of a value.  In the places this is used the source would
raise `TypeError` on a non-string; the claims only involve strings, for which
this is exact. -/
def pyAsStr : PyVal → String
  | .str s => s
  | _ => ""

/-- `POSSIBLE_STAGES` from the source (line 24). -/
def POSSIBLE_STAGES : List String :=
  ["prepare", "startup", "check", "post-process", "shutdown"]

/-- Python `v in [True, False]` (line 147): membership uses `==`, so `1` and
`0` count as booleans. -/
def pyIsBoolLike (v : PyVal) : Bool :=
  pyEq v (.bool true) || pyEq v (.bool false)

/-- Python `v in POSSIBLE_STAGES` (line 143; membership by `==`). -/
def pyStageOk (v : PyVal) : Bool :=
  POSSIBLE_STAGES.any (fun s => pyEq v (.str s))

/-- A task descriptor as found under one stage key of the settings, before the
scheduler stamps `start-stage` onto it.  `Option.none` in a field means the
key is absent from the dictionary (so dictionary defaults apply). -/
structure TaskDesc where
  stop_stage : Option PyVal := Option.none
  block : Option PyVal := Option.none
  stop_on_fail : Option PyVal := Option.none
  label : Option PyVal := Option.none
  command : Option PyVal := Option.none
  out : Option PyVal := Option.none
  err : Option PyVal := Option.none
deriving DecidableEq, Repr

/-- A task config after `Task.prepare` merged it over the defaults
`{"stop-stage": "post-process", "block": False, "stop-on-fail": False}`
(lines 139-141).  `start_stage` is the string the scheduler assigned. -/
structure NormConfig where
  start_stage : String
  stop_stage : PyVal
  block : PyVal
  stop_on_fail : PyVal
  label : Option PyVal
  command : Option PyVal
  out : Option PyVal
  err : Option PyVal
deriving DecidableEq, Repr

/-- `Task.prepare` (lines 121-157): merge defaults, then validate, raising
`ValueError` (modelled as `.error msg`) in the source's order: stop-stage
membership, `block`/`stop-on-fail` in `[True, False]`, falsy `command`,
blocking on the startup stage. -/
def Task.prepare (start_stage : String) (d : TaskDesc) : Except String NormConfig :=
  if !pyStageOk (d.stop_stage.getD (PyVal.str "post-process")) then
    .error "Invalid stage name in task config!"
  else if !pyIsBoolLike (d.block.getD (PyVal.bool false))
      || !pyIsBoolLike (d.stop_on_fail.getD (PyVal.bool false)) then
    .error "Invalid block option value"
  else if !pyTruthy (d.command.getD PyVal.none) then
    .error "No command in task config!"
  else if start_stage == "startup" && pyTruthy (d.block.getD (PyVal.bool false)) then
    .error "Blocking tasks are not allowed on startup stage!"
  else
    .ok { start_stage := start_stage,
          stop_stage := d.stop_stage.getD (PyVal.str "post-process"),
          block := d.block.getD (PyVal.bool false),
          stop_on_fail := d.stop_on_fail.getD (PyVal.bool false),
          label := d.label, command := d.command, out := d.out, err := d.err }

/-- The runtime error a task can raise while being polled: `AutomatedShutdown`
(line 184), the process-wide run-abort signal. -/
inductive ExecError
  | automatedShutdown
deriving DecidableEq, Repr

/-- `Task.is_finished` (lines 177-188): poll the process (the poll result is
passed in: `Option.none` = still running, `some c` = exited with code `c`).
A non-zero code with truthy `stop-on-fail` raises `AutomatedShutdown`;
otherwise an exited process yields `true`, a live one `false`. -/
def Task.is_finished (cfg : NormConfig) (poll : Option Int) : Except ExecError Bool :=
  match poll with
  | some ret_code =>
    if ret_code != 0 && pyTruthy cfg.stop_on_fail then
      .error ExecError.automatedShutdown
    else
      .ok true
  | Option.none => .ok false

/-- `Task.shutdown` (lines 190-206): polls via `is_finished` (which can raise
`AutomatedShutdown`); returns `true` when `shutdown_process` was invoked (the
task had not finished), `false` when no termination action was taken.  The
re-reading and logging of the two sink files touches no scheduler state. -/
def Task.shutdown (cfg : NormConfig) (poll : Option Int) : Except ExecError Bool :=
  match Task.is_finished cfg poll with
  | .error e => .error e
  | .ok fin => .ok (!fin)

/-- `while not task.is_finished(): time.sleep(1)` (lines 101-103), run against
the list of successive poll results that the OS delivers; `.ok false` means
the trace was exhausted with the process still running (the real loop would
keep polling). -/
def wait_loop (cfg : NormConfig) : List (Option Int) → Except ExecError Bool
  | [] => .ok false
  | p :: rest =>
    match Task.is_finished cfg p with
    | .error e => .error e
    | .ok true => .ok true
    | .ok false => wait_loop cfg rest

/-- First exit observation in a poll trace (where `wait_loop` stops). -/
def firstSome : List (Option Int) → Option Int
  | [] => Option.none
  | Option.none :: rest => firstSome rest
  | some c :: _ => some c

/-- Observable scheduler events, identifying tasks by their position in the
original configuration order. -/
inductive Event
  | start (i : Nat)
  | waited (i : Nat)
  | shut (i : Nat)
deriving DecidableEq, Repr

/-- How a stage phase ended: normally, blocked forever (poll trace exhausted),
or by a raised error. -/
inductive PhaseOut
  | ok
  | hang
  | err (e : ExecError)
deriving DecidableEq, Repr

/-- The filter of `_start_tasks` and `_shutdown_tasks` (lines 74 and 86):
`task.config.get("start-stage") == cur_stage`. -/
def startMatch (stage : String) (t : Nat × NormConfig) : Bool :=
  t.2.start_stage == stage

/-- The filter of `_wait_blocking_tasks` (lines 96-97):
`task.config.get("block") and task.config.get("start-stage") == cur_stage`. -/
def blockMatch (stage : String) (t : Nat × NormConfig) : Bool :=
  pyTruthy t.2.block && (t.2.start_stage == stage)

/-- `ShellExecutor._start_tasks` (lines 73-83): launch every task whose
start stage is the current stage, in list order.  Launching itself is an
external effect (a launch failure would propagate); the event trace records
the launches. -/
def start_tasks (stage : String) (tl : List (Nat × NormConfig)) : List Event :=
  (tl.filter (startMatch stage)).map (fun t => Event.start t.1)

/-- Loop body of `_wait_blocking_tasks` over the already-filtered list:
wait for each task in order; a raised `AutomatedShutdown` aborts the phase
with the earlier waits' events kept. -/
def wait_go (wT : Nat → List (Option Int)) :
    List (Nat × NormConfig) → List Event × PhaseOut
  | [] => ([], PhaseOut.ok)
  | t :: rest =>
    match wait_loop t.2 (wT t.1) with
    | .error e => ([], PhaseOut.err e)
    | .ok false => ([], PhaseOut.hang)
    | .ok true =>
      let r := wait_go wT rest
      (Event.waited t.1 :: r.1, r.2)

/-- `ShellExecutor._wait_blocking_tasks` (lines 95-103). `wT i` is the trace
of poll results task `i` sees during its blocking wait. -/
def wait_blocking_tasks (stage : String) (wT : Nat → List (Option Int))
    (tl : List (Nat × NormConfig)) : List Event × PhaseOut :=
  wait_go wT (tl.filter (blockMatch stage))

/-- Loop body of `_shutdown_tasks` over the precomputed filtered list, with
the current `task_list` threaded through: `task.shutdown()` (which polls and
can raise) then `self.task_list.remove(task)` (removal of that object, here
by index identity).  On a raise, the current task stays in the list. -/
def shut_go (sE : Nat → Option Int) :
    List (Nat × NormConfig) → List (Nat × NormConfig) →
    List (Nat × NormConfig) × List Event × Option ExecError
  | [], cur => (cur, [], Option.none)
  | t :: rest, cur =>
    match Task.shutdown t.2 (sE t.1) with
    | .error e => (cur, [], some e)
    | .ok _ =>
      let r := shut_go sE rest (cur.eraseP (fun x => x.1 == t.1))
      (r.1, Event.shut t.1 :: r.2.1, r.2.2)

/-- `ShellExecutor._shutdown_tasks` (lines 85-93).  Note the source filters by
`start-stage`, not `stop-stage`.  `sE i` is the poll result task `i`'s process
reports when its shutdown polls it. -/
def shutdown_tasks (stage : String) (sE : Nat → Option Int)
    (tl : List (Nat × NormConfig)) :
    List (Nat × NormConfig) × List Event × Option ExecError :=
  shut_go sE (tl.filter (startMatch stage)) tl

/-- Result of one `process_stage` call: the new `task_list`, the event trace,
and how the call ended. -/
structure SchedResult where
  task_list : List (Nat × NormConfig)
  events : List Event
  outcome : PhaseOut
deriving DecidableEq, Repr

/-- `ShellExecutor.process_stage` (lines 105-108): `_start_tasks`, then
`_wait_blocking_tasks`, then `_shutdown_tasks`, each over the full
`task_list`; an error raised while waiting propagates before the shutdown
phase runs, leaving `task_list` untouched. -/
def process_stage (stage : String) (wT : Nat → List (Option Int))
    (sE : Nat → Option Int) (tl : List (Nat × NormConfig)) : SchedResult :=
  match (wait_blocking_tasks stage wT tl).2 with
  | PhaseOut.ok =>
    { task_list := (shutdown_tasks stage sE tl).1,
      events := start_tasks stage tl ++ (wait_blocking_tasks stage wT tl).1
                  ++ (shutdown_tasks stage sE tl).2.1,
      outcome := match (shutdown_tasks stage sE tl).2.2 with
        | Option.none => PhaseOut.ok
        | some e => PhaseOut.err e }
  | out =>
    { task_list := tl,
      events := start_tasks stage tl ++ (wait_blocking_tasks stage wT tl).1,
      outcome := out }

/-- Inner loop of `ShellExecutor.prepare` (lines 39-46) for one stage key:
construct each task in order (`Task(stage_task, ...)` runs `Task.prepare`),
appending to the accumulated `task_list`; the first `ValueError` is re-raised
with the list as it stands — no rollback. -/
def prepare_stage_tasks (stage : String) :
    List TaskDesc → List NormConfig → List NormConfig × Option String
  | [], acc => (acc, Option.none)
  | d :: ds, acc =>
    match Task.prepare stage d with
    | .error e => (acc, some e)
    | .ok t => prepare_stage_tasks stage ds (acc ++ [t])

/-- `ShellExecutor.prepare` (lines 31-47), the task-construction loop over the
settings (an association of stage keys to descriptor lists): an unknown stage
key raises, then each stage's tasks are built in order.  (The source then
calls `process_stage "prepare"`, which is modelled separately.) -/
def prepare_tasks :
    List (String × List TaskDesc) → List NormConfig → List NormConfig × Option String
  | [], acc => (acc, Option.none)
  | (stage, ds) :: rest, acc =>
    if stage ∉ POSSIBLE_STAGES then
      (acc, some "Wrong stage name in shellexec config!")
    else
      match prepare_stage_tasks stage ds acc with
      | (acc', Option.none) => prepare_tasks rest acc'
      | (acc', some e) => (acc', some e)

/-- `os.path.join` for one relative or absolute component (POSIX): an
absolute `name` wins; otherwise a single separator is inserted unless `dir`
is empty or already ends in one. -/
def os_path_join (dir name : String) : String :=
  if name.data.head? == some '/' then name
  else if dir == "" || dir.data.getLast? == some '/' then dir ++ name
  else dir ++ "/" ++ name

/-- The two sink paths and open modes `Task.startup` computes (lines 164-172). -/
structure StartupPaths where
  out_path : String
  err_path : String
  out_mode : String
  err_mode : String
deriving DecidableEq, Repr

/-- Path resolution of `Task.startup` (lines 164-172): the filename stem is
the label when truthy, else `task_` followed by the object hash (passed in as
`uid`); `config.get("out", stem + ".out")` keeps an explicit path when the key
is present; both sinks are opened with mode `wt` (write, truncating). -/
def Task.startup_paths (cfg : NormConfig) (working_dir uid : String) : StartupPaths :=
  let labelv := cfg.label.getD PyVal.none
  let stem := if pyTruthy labelv then pyAsStr labelv else "task_" ++ uid
  let out_option := match cfg.out with
    | some v => pyAsStr v
    | Option.none => stem ++ ".out"
  let err_option := match cfg.err with
    | some v => pyAsStr v
    | Option.none => stem ++ ".err"
  { out_path := os_path_join working_dir out_option,
    err_path := os_path_join working_dir err_option,
    out_mode := "wt", err_mode := "wt" }

/-! ## Helper lemmas -/

theorem except_isOk_iff {ε α : Type} (e : Except ε α) :
    e.isOk = true ↔ ∃ a, e = Except.ok a := by
  cases e with
  | error x => exact ⟨fun h => Bool.noConfusion h, fun ⟨a, ha⟩ => Except.noConfusion ha⟩
  | ok a => exact ⟨fun _ => ⟨a, rfl⟩, fun _ => rfl⟩

theorem except_isOk_false_iff {ε α : Type} (e : Except ε α) :
    e.isOk = false ↔ ∃ x, e = Except.error x := by
  cases e with
  | error x => exact ⟨fun _ => ⟨x, rfl⟩, fun _ => rfl⟩
  | ok a => exact ⟨fun h => Bool.noConfusion h, fun ⟨x, hx⟩ => Except.noConfusion hx⟩

theorem prepare_error_of_falsy_command (s : String) (d : TaskDesc)
    (hcmd : pyTruthy (d.command.getD PyVal.none) = false) :
    ∃ e, Task.prepare s d = Except.error e := by
  unfold Task.prepare
  split_ifs with h1 h2 h3 h4
  · exact ⟨_, rfl⟩
  · exact ⟨_, rfl⟩
  · exact ⟨_, rfl⟩
  · exact ⟨_, rfl⟩
  · exact absurd (show (!pyTruthy (d.command.getD PyVal.none)) = true by simp [hcmd]) h3

theorem prepare_error_of_startup_block (d : TaskDesc)
    (hb : d.block = some (PyVal.bool true)) :
    ∃ e, Task.prepare "startup" d = Except.error e := by
  unfold Task.prepare
  split_ifs with h1 h2 h3 h4
  · exact ⟨_, rfl⟩
  · exact ⟨_, rfl⟩
  · exact ⟨_, rfl⟩
  · exact ⟨_, rfl⟩
  · exact absurd
      (show ("startup" == "startup" && pyTruthy (d.block.getD (PyVal.bool false))) = true by
        simp [hb, pyTruthy]) h4

/-! ## C1: what the shutdown phase actually selects

`_shutdown_tasks` (line 86) filters `task_list` by `start-stage`, although the
`stop-stage` key is defaulted and validated by `Task.prepare` (lines 139-145)
and never read anywhere else.  The two concrete runs below exhibit both
directions of the divergence from the claim. -/

/-- A valid task that starts at `prepare` and is configured to stop at
`shutdown`. -/
def cfgA : NormConfig :=
  { start_stage := "prepare", stop_stage := PyVal.str "shutdown",
    block := PyVal.bool false, stop_on_fail := PyVal.bool false,
    label := Option.none, command := some (PyVal.str "sleep 10"),
    out := Option.none, err := Option.none }

/-- A valid task that starts at `check` and is configured to stop at
`prepare`. -/
def cfgB : NormConfig :=
  { start_stage := "check", stop_stage := PyVal.str "prepare",
    block := PyVal.bool false, stop_on_fail := PyVal.bool false,
    label := Option.none, command := some (PyVal.str "sleep 10"),
    out := Option.none, err := Option.none }

/-- C1: refuted by the code — the shutdown phase of `process_stage S` shuts
down and removes exactly the tasks whose START stage is `S`, not those whose
stop stage is `S`.  Concretely: a task with start stage `prepare` and stop
stage `shutdown` is terminated and removed by `process_stage "prepare"`
(first conjunct), while a task with stop stage `prepare` and start stage
`check` survives `process_stage "prepare"` untouched (second conjunct), so a
task with stop-stage `S` can remain after `ProcessStage(S)`. -/
theorem c1_shutdown_selects_by_start_stage :
    ((process_stage "prepare" (fun _ => []) (fun _ => Option.none) [(0, cfgA)]).task_list = []
      ∧ (process_stage "prepare" (fun _ => []) (fun _ => Option.none) [(0, cfgA)]).events
          = [Event.start 0, Event.shut 0]
      ∧ cfgA.stop_stage ≠ PyVal.str "prepare")
    ∧ ((process_stage "prepare" (fun _ => []) (fun _ => Option.none) [(0, cfgB)]).task_list
          = [(0, cfgB)]
      ∧ (process_stage "prepare" (fun _ => []) (fun _ => Option.none) [(0, cfgB)]).events = []
      ∧ cfgB.stop_stage = PyVal.str "prepare") :=
  ⟨⟨rfl, rfl, by decide⟩, ⟨rfl, rfl, rfl⟩⟩

/-! ## C6: missing or empty command -/

/-- C6: a descriptor whose `command` is absent, `None`, or empty (Python
falsy) makes `Task.prepare` raise a `ValueError`, and the construction loop
of `ShellExecutor.prepare` leaves `task_list` exactly as it was (the task is
never appended) while propagating the error. -/
theorem c6_no_command_rejected (s : String) (d : TaskDesc)
    (hcmd : pyTruthy (d.command.getD PyVal.none) = false) :
    (Task.prepare s d).isOk = false
    ∧ ∀ (acc : List NormConfig) (ds : List TaskDesc),
        (prepare_stage_tasks s (d :: ds) acc).1 = acc
        ∧ (prepare_stage_tasks s (d :: ds) acc).2.isSome = true := by
  obtain ⟨e, he⟩ := prepare_error_of_falsy_command s d hcmd
  refine ⟨(except_isOk_false_iff _).2 ⟨e, he⟩, fun acc ds => ?_⟩
  simp [prepare_stage_tasks, he]

/-- C6 witness: the concrete descriptor `{label: "x"}` (no command at all)
is rejected and not appended. -/
theorem c6_no_command_rejected_witness :
    (Task.prepare "prepare" { label := some (PyVal.str "x") }).isOk = false
    ∧ (prepare_stage_tasks "prepare" [{ label := some (PyVal.str "x") }] []).1 = []
    ∧ (prepare_stage_tasks "prepare" [{ label := some (PyVal.str "x") }] []).2.isSome = true := by
  have h := c6_no_command_rejected "prepare" { label := some (PyVal.str "x") } (by rfl)
  exact ⟨h.1, (h.2 [] []).1, (h.2 [] []).2⟩

/-! ## C7: blocking task on the startup stage -/

/-- C7: a descriptor with start stage `startup` and `block = True` always
makes `Task.prepare` raise a `ValueError` (one of the validation errors
fires no matter what the other fields hold; when all of them are valid it is
the dedicated check of line 155). -/
theorem c7_startup_block_rejected (d : TaskDesc)
    (hb : d.block = some (PyVal.bool true)) :
    (Task.prepare "startup" d).isOk = false := by
  obtain ⟨e, he⟩ := prepare_error_of_startup_block d hb
  exact (except_isOk_false_iff _).2 ⟨e, he⟩

/-- C7 witness: the concrete blocking startup-stage descriptor
`{command: "echo hi", block: True}` is rejected. -/
theorem c7_startup_block_rejected_witness :
    (Task.prepare "startup"
      { block := some (PyVal.bool true), command := some (PyVal.str "echo hi") }).isOk
      = false :=
  c7_startup_block_rejected _ rfl

/-! ## C8: non-boolean flag values

The validation of line 147 is Python `v in [True, False]`, and `in` compares
with `==`, under which `1 == True` and `0 == False`.  So the integers `1` and
`0` pass the "must be boolean" check, refuting the claim as stated; every
other non-boolean value (strings, `None`, other integers) is rejected, as is
a `stop-stage` outside the fixed stage set. -/

/-- C8 counterexample: the descriptor `{block: 1, command: "echo hi"}` —
whose `block` field holds an integer, not a boolean — is ACCEPTED by
`Task.prepare` (Python `1 in [True, False]` is `True`), contradicting the
claim that every non-boolean `block` value fails construction. -/
theorem c8_int_block_accepted :
    (Task.prepare "prepare"
      { block := some (PyVal.int 1), command := some (PyVal.str "echo hi") }).isOk
      = true := by rfl

/-- A value of `block`/`stop-on-fail` that Python's `v in [True, False]`
rejects: any string, `None`, or an integer other than `0` and `1`. -/
def NotBoolLike (v : PyVal) : Prop :=
  (∃ s, v = PyVal.str s) ∨ (∃ n, v = PyVal.int n ∧ n ≠ 0 ∧ n ≠ 1) ∨ v = PyVal.none

theorem pyIsBoolLike_false_of_notBoolLike (v : PyVal) (h : NotBoolLike v) :
    pyIsBoolLike v = false := by
  rcases h with ⟨s, rfl⟩ | ⟨n, rfl, hn0, hn1⟩ | rfl
  · rfl
  · simp [pyIsBoolLike, pyEq, pyNum, hn0, hn1]
  · rfl

/-- C8 amended: construction fails with a `ValueError` whenever the `block`
field or the `stop-on-fail` field (after dictionary defaulting) holds a value
not equal — under Python `==`, which identifies `True` with `1` and `False`
with `0` — to `True` or `False` (so: any string, `None`, or an integer other
than `0` and `1`), and likewise whenever the `stop-stage` value is not a
member of the fixed stage set.  The integers `0` and `1` themselves are
accepted, contrary to the original claim. -/
theorem c8_invalid_field_rejected (s : String) (d : TaskDesc)
    (h : NotBoolLike (d.block.getD (PyVal.bool false))
      ∨ NotBoolLike (d.stop_on_fail.getD (PyVal.bool false))
      ∨ pyStageOk (d.stop_stage.getD (PyVal.str "post-process")) = false) :
    (Task.prepare s d).isOk = false := by
  have herr : ∃ e, Task.prepare s d = Except.error e := by
    unfold Task.prepare
    rcases h with hb | hsof | hstop
    · have hb' := pyIsBoolLike_false_of_notBoolLike _ hb
      split_ifs with h1 h2 h3 h4
      · exact ⟨_, rfl⟩
      · exact ⟨_, rfl⟩
      · exact ⟨_, rfl⟩
      · exact ⟨_, rfl⟩
      · exact absurd (show (!pyIsBoolLike (d.block.getD (PyVal.bool false))
            || !pyIsBoolLike (d.stop_on_fail.getD (PyVal.bool false))) = true by
          simp [hb']) h2
    · have hs' := pyIsBoolLike_false_of_notBoolLike _ hsof
      split_ifs with h1 h2 h3 h4
      · exact ⟨_, rfl⟩
      · exact ⟨_, rfl⟩
      · exact ⟨_, rfl⟩
      · exact ⟨_, rfl⟩
      · exact absurd (show (!pyIsBoolLike (d.block.getD (PyVal.bool false))
            || !pyIsBoolLike (d.stop_on_fail.getD (PyVal.bool false))) = true by
          simp [hs']) h2
    · split_ifs with h1 h2 h3 h4
      · exact ⟨_, rfl⟩
      · exact ⟨_, rfl⟩
      · exact ⟨_, rfl⟩
      · exact ⟨_, rfl⟩
      · exact absurd (show (!pyStageOk (d.stop_stage.getD (PyVal.str "post-process"))) = true by
          simp [hstop]) h1
  obtain ⟨e, he⟩ := herr
  exact (except_isOk_false_iff _).2 ⟨e, he⟩

/-- C8 amended witness: `{block: "yes", command: "echo hi"}` (string-valued
`block`) is rejected. -/
theorem c8_invalid_field_rejected_witness :
    (Task.prepare "prepare"
      { block := some (PyVal.str "yes"), command := some (PyVal.str "echo hi") }).isOk
      = false := by
  refine c8_invalid_field_rejected "prepare" _ (Or.inl ?_)
  exact Or.inl ⟨"yes", rfl⟩

/-! ## C10: preparation is not atomic -/

theorem prepare_stage_tasks_append_ok (s : String) (ds₁ ds₂ : List TaskDesc)
    (acc : List NormConfig)
    (hok : ∀ d ∈ ds₁, (Task.prepare s d).isOk = true) :
    prepare_stage_tasks s (ds₁ ++ ds₂) acc
      = prepare_stage_tasks s ds₂
          (acc ++ ds₁.filterMap (fun d => (Task.prepare s d).toOption)) := by
  induction ds₁ generalizing acc with
  | nil => simp [prepare_stage_tasks]
  | cons d ds ih =>
    obtain ⟨t, ht⟩ := (except_isOk_iff _).1 (hok d (by simp))
    show prepare_stage_tasks s (d :: (ds ++ ds₂)) acc = _
    rw [prepare_stage_tasks, ht]
    dsimp only
    rw [ih _ (fun d' hd' => hok d' (by simp [hd']))]
    simp [ht, Except.toOption]

/-- C10: the construction loop of `ShellExecutor.prepare` is not atomic:
when every descriptor before `d` constructs successfully and `d` fails, the
error propagates but the resulting `task_list` still holds every task built
before `d`, appended in configuration order after whatever was already in the
list; the descriptors after `d` (and any later stage keys) are not processed
and nothing is rolled back. -/
theorem c10_prepare_not_atomic (s : String) (ds₁ : List TaskDesc) (d : TaskDesc)
    (ds₂ : List TaskDesc) (rest : List (String × List TaskDesc))
    (acc : List NormConfig)
    (hs : s ∈ POSSIBLE_STAGES)
    (hok : ∀ d' ∈ ds₁, (Task.prepare s d').isOk = true)
    (hbad : (Task.prepare s d).isOk = false) :
    (prepare_tasks ((s, ds₁ ++ d :: ds₂) :: rest) acc).1
        = acc ++ ds₁.filterMap (fun d' => (Task.prepare s d').toOption)
    ∧ (prepare_tasks ((s, ds₁ ++ d :: ds₂) :: rest) acc).2.isSome = true := by
  obtain ⟨e, he⟩ := (except_isOk_false_iff _).1 hbad
  have hstage :
      prepare_stage_tasks s (ds₁ ++ d :: ds₂) acc
        = (acc ++ ds₁.filterMap (fun d' => (Task.prepare s d').toOption), some e) := by
    rw [prepare_stage_tasks_append_ok s ds₁ (d :: ds₂) acc hok]
    simp [prepare_stage_tasks, he]
  simp [prepare_tasks, hs, hstage]

/-- C10 witness: with a good descriptor followed by a command-less one under
the `prepare` stage key, the good task stays in the list and the error is
reported. -/
theorem c10_prepare_not_atomic_witness :
    (prepare_tasks
        [("prepare", [{ command := some (PyVal.str "echo hi") }, { label := Option.none }])]
        []).1
      = [{ start_stage := "prepare", stop_stage := PyVal.str "post-process",
           block := PyVal.bool false, stop_on_fail := PyVal.bool false,
           label := Option.none, command := some (PyVal.str "echo hi"),
           out := Option.none, err := Option.none }]
    ∧ (prepare_tasks
        [("prepare", [{ command := some (PyVal.str "echo hi") }, { label := Option.none }])]
        []).2.isSome = true := by
  have h := c10_prepare_not_atomic "prepare" [{ command := some (PyVal.str "echo hi") }]
    { label := Option.none } [] [] [] (by simp [POSSIBLE_STAGES])
    (by intro d' hd'; simp at hd'; subst hd'; rfl) (by rfl)
  exact ⟨h.1.trans rfl, h.2⟩

/-! ## Lemmas about the wait and shutdown phases -/

theorem wait_loop_eq_firstSome (cfg : NormConfig) (tr : List (Option Int)) :
    wait_loop cfg tr
      = match firstSome tr with
        | Option.none => Except.ok false
        | some c => Task.is_finished cfg (some c) := by
  induction tr with
  | nil => rfl
  | cons p rest ih =>
    cases p with
    | none => simpa [wait_loop, Task.is_finished, firstSome] using ih
    | some c =>
      by_cases h : (c != 0 && pyTruthy cfg.stop_on_fail) = true
      · simp [wait_loop, Task.is_finished, firstSome, h]
      · simp [wait_loop, Task.is_finished, firstSome, h]

theorem wait_go_all_ok (wT : Nat → List (Option Int)) (l : List (Nat × NormConfig))
    (h : ∀ u ∈ l, wait_loop u.2 (wT u.1) = Except.ok true) :
    wait_go wT l = (l.map (fun u => Event.waited u.1), PhaseOut.ok) := by
  induction l with
  | nil => rfl
  | cons u us ih =>
    have hu := h u (by simp)
    simp [wait_go, hu, ih (fun v hv => h v (by simp [hv]))]

theorem wait_go_abort (wT : Nat → List (Option Int)) (bs₁ : List (Nat × NormConfig))
    (t : Nat × NormConfig) (bs₂ : List (Nat × NormConfig)) (e : ExecError)
    (hpre : ∀ u ∈ bs₁, wait_loop u.2 (wT u.1) = Except.ok true)
    (ht : wait_loop t.2 (wT t.1) = Except.error e) :
    wait_go wT (bs₁ ++ t :: bs₂)
      = (bs₁.map (fun u => Event.waited u.1), PhaseOut.err e) := by
  induction bs₁ with
  | nil => simp [wait_go, ht]
  | cons u us ih =>
    have hu := hpre u (by simp)
    simp [wait_go, hu, ih (fun v hv => hpre v (by simp [hv]))]

theorem wait_go_events_shape (wT : Nat → List (Option Int)) (l : List (Nat × NormConfig)) :
    ∃ p : List (Nat × NormConfig),
      (wait_go wT l).1 = p.map (fun u => Event.waited u.1) ∧ p.Sublist l := by
  induction l with
  | nil => exact ⟨[], rfl, List.nil_sublist _⟩
  | cons u us ih =>
    obtain ⟨p, hp, hs⟩ := ih
    cases hw : wait_loop u.2 (wT u.1) with
    | error e => exact ⟨[], by simp [wait_go, hw], List.nil_sublist _⟩
    | ok b =>
      cases b with
      | false => exact ⟨[], by simp [wait_go, hw], List.nil_sublist _⟩
      | true => exact ⟨u :: p, by simp [wait_go, hw, hp], List.Sublist.cons₂ u hs⟩

theorem task_shutdown_ok_of_not_sof (cfg : NormConfig) (poll : Option Int)
    (h : pyTruthy cfg.stop_on_fail = false) :
    ∃ b, Task.shutdown cfg poll = Except.ok b := by
  cases poll with
  | none => exact ⟨true, rfl⟩
  | some c => exact ⟨false, by simp [Task.shutdown, Task.is_finished, h]⟩

theorem shut_go_no_error (sE : Nat → Option Int) (l : List (Nat × NormConfig))
    (h : ∀ u ∈ l, pyTruthy (u.2 : NormConfig).stop_on_fail = false) :
    ∀ cur, (shut_go sE l cur).2.2 = Option.none := by
  induction l with
  | nil => intro cur; rfl
  | cons u us ih =>
    intro cur
    obtain ⟨b, hb⟩ := task_shutdown_ok_of_not_sof u.2 (sE u.1) (h u (by simp))
    simp [shut_go, hb, ih (fun v hv => h v (by simp [hv])) _]

theorem shut_go_events_shape (sE : Nat → Option Int) (l : List (Nat × NormConfig)) :
    ∀ cur, ∃ p : List (Nat × NormConfig),
      (shut_go sE l cur).2.1 = p.map (fun u => Event.shut u.1) ∧ p.Sublist l := by
  induction l with
  | nil => exact fun cur => ⟨[], rfl, List.nil_sublist _⟩
  | cons u us ih =>
    intro cur
    cases hu : Task.shutdown u.2 (sE u.1) with
    | error e => exact ⟨[], by simp [shut_go, hu], List.nil_sublist _⟩
    | ok b =>
      obtain ⟨p, hp, hs⟩ := ih (cur.eraseP (fun x => x.1 == u.1))
      exact ⟨u :: p, by simp [shut_go, hu, hp], List.Sublist.cons₂ u hs⟩

/-! ## C2: stop-on-fail failure during the blocking wait -/

/-- C2: when the blocking tasks of stage `S` are `bs₁ ++ t :: bs₂`, the waits
for `bs₁` finish cleanly, and `t` (with truthy `stop-on-fail`) is observed
exiting with a non-zero code, then `process_stage S` ends with the raised
`AutomatedShutdown`: the event trace holds the start events and the waits for
`bs₁` only (neither `t`'s wait nor the tasks of `bs₂` are waited on), no task
is shut down, and `task_list` is left untouched. -/
theorem c2_stop_on_fail_abort (stage : String) (wT : Nat → List (Option Int))
    (sE : Nat → Option Int) (tl : List (Nat × NormConfig))
    (bs₁ : List (Nat × NormConfig)) (t : Nat × NormConfig) (bs₂ : List (Nat × NormConfig))
    (hsplit : tl.filter (blockMatch stage) = bs₁ ++ t :: bs₂)
    (hpre : ∀ u ∈ bs₁, wait_loop u.2 (wT u.1) = Except.ok true)
    (c : Int) (hc : firstSome (wT t.1) = some c) (hcz : c ≠ 0)
    (hsof : pyTruthy t.2.stop_on_fail = true) :
    (process_stage stage wT sE tl).outcome = PhaseOut.err ExecError.automatedShutdown
    ∧ (process_stage stage wT sE tl).events
        = start_tasks stage tl ++ bs₁.map (fun u => Event.waited u.1)
    ∧ (process_stage stage wT sE tl).task_list = tl := by
  have hcz' : (c != 0) = true := by simpa using hcz
  have hwl : wait_loop t.2 (wT t.1) = Except.error ExecError.automatedShutdown := by
    rw [wait_loop_eq_firstSome, hc]
    simp [Task.is_finished, hsof, hcz']
  have hwb : wait_blocking_tasks stage wT tl
      = (bs₁.map (fun u => Event.waited u.1), PhaseOut.err ExecError.automatedShutdown) := by
    unfold wait_blocking_tasks
    rw [hsplit]
    exact wait_go_abort wT bs₁ t bs₂ _ hpre hwl
  refine ⟨?_, ?_, ?_⟩ <;> simp [process_stage, hwb]

/-- A blocking stop-on-fail task starting (and blocking) at stage `check`. -/
def cfgC : NormConfig :=
  { start_stage := "check", stop_stage := PyVal.str "post-process",
    block := PyVal.bool true, stop_on_fail := PyVal.bool true,
    label := Option.none, command := some (PyVal.str "exit 1"),
    out := Option.none, err := Option.none }

/-- C2 witness: one blocking stop-on-fail task at stage `check` observed
exiting with code 1 aborts the stage with `AutomatedShutdown`, leaving the
task in the list and never reaching the shutdown phase. -/
theorem c2_stop_on_fail_abort_witness :
    (process_stage "check" (fun _ => [some 1]) (fun _ => Option.none) [(0, cfgC)]).outcome
        = PhaseOut.err ExecError.automatedShutdown
    ∧ (process_stage "check" (fun _ => [some 1]) (fun _ => Option.none) [(0, cfgC)]).events
        = [Event.start 0]
    ∧ (process_stage "check" (fun _ => [some 1]) (fun _ => Option.none) [(0, cfgC)]).task_list
        = [(0, cfgC)] := by
  have h := c2_stop_on_fail_abort "check" (fun _ => [some 1]) (fun _ => Option.none)
    [(0, cfgC)] [] (0, cfgC) [] rfl (by simp) 1 rfl (by decide) rfl
  exact ⟨h.1, h.2.1.trans rfl, h.2.2⟩

/-! ## C3: the run-abort signal arises only from a poll of a running task -/

/-- C3: `AutomatedShutdown` can arise only inside `is_finished`, from a poll
observing a non-zero exit that no earlier poll had accepted; once a poll has
returned `true` (the task was observed Finished), every later poll of the
same, stable exit status again returns `true` and `Task.shutdown` neither
raises nor terminates anything (`.ok false` = no termination action). -/
theorem c3_no_abort_after_finished (cfg : NormConfig) (p₁ p₂ : Option Int)
    (hfin : Task.is_finished cfg p₁ = Except.ok true)
    (hstable : ∀ c : Int, p₁ = some c → p₂ = some c) :
    Task.is_finished cfg p₂ = Except.ok true
    ∧ Task.shutdown cfg p₂ = Except.ok false := by
  cases p₁ with
  | none => exact absurd hfin (by simp [Task.is_finished])
  | some c =>
    have hp2 := hstable c rfl
    cases hx : (c != 0 && pyTruthy cfg.stop_on_fail) with
    | true => exact absurd hfin (by simp [Task.is_finished, hx])
    | false =>
      subst hp2
      exact ⟨by simp [Task.is_finished, hx], by simp [Task.shutdown, Task.is_finished, hx]⟩

/-- C3 witness: a task observed finished with exit code 0 is polled again at
shutdown and nothing is raised or terminated. -/
theorem c3_no_abort_after_finished_witness :
    Task.is_finished cfgC (some 0) = Except.ok true
    ∧ Task.shutdown cfgC (some 0) = Except.ok false :=
  c3_no_abort_after_finished cfgC (some 0) (some 0) rfl (fun _ h => h)

/-! ## C4: phase order inside one stage call -/

/-- C4: every `process_stage` trace is the start events of exactly the tasks
whose start stage matches (in configuration order, i.e. `task_list` order),
followed by wait events only, followed by shutdown events only; the waited
tasks form an order-preserving selection (`Sublist`) of the blocking matching
tasks and the shut tasks of the start-matching tasks, so within each phase
tasks are processed in their original configuration order and the phases
never interleave. -/
theorem c4_phase_order (stage : String) (wT : Nat → List (Option Int))
    (sE : Nat → Option Int) (tl : List (Nat × NormConfig)) :
    ∃ we se : List (Nat × NormConfig),
      (process_stage stage wT sE tl).events
        = (tl.filter (startMatch stage)).map (fun t => Event.start t.1)
          ++ we.map (fun u => Event.waited u.1)
          ++ se.map (fun u => Event.shut u.1)
      ∧ we.Sublist (tl.filter (blockMatch stage))
      ∧ se.Sublist (tl.filter (startMatch stage)) := by
  obtain ⟨pw, hpw, hpws⟩ := wait_go_events_shape wT (tl.filter (blockMatch stage))
  cases hw : (wait_blocking_tasks stage wT tl).2 with
  | ok =>
    obtain ⟨ps, hps, hpss⟩ := shut_go_events_shape sE (tl.filter (startMatch stage)) tl
    refine ⟨pw, ps, ?_, hpws, hpss⟩
    simp only [process_stage, hw]
    rw [show (wait_blocking_tasks stage wT tl).1 = pw.map (fun u => Event.waited u.1) from hpw,
      show (shutdown_tasks stage sE tl).2.1 = ps.map (fun u => Event.shut u.1) from hps]
    rfl
  | hang =>
    refine ⟨pw, [], ?_, hpws, List.nil_sublist _⟩
    simp only [process_stage, hw]
    rw [show (wait_blocking_tasks stage wT tl).1 = pw.map (fun u => Event.waited u.1) from hpw]
    simp [start_tasks]
  | err e =>
    refine ⟨pw, [], ?_, hpws, List.nil_sublist _⟩
    simp only [process_stage, hw]
    rw [show (wait_blocking_tasks stage wT tl).1 = pw.map (fun u => Event.waited u.1) from hpw]
    simp [start_tasks]

/-! ## C5: non-zero exits without stop-on-fail are benign -/

/-- C5: for a task whose `stop-on-fail` is falsy, `is_finished` returns
`true` without raising on any exit code (non-zero included) and `false` when
the process has not exited; consequently a `process_stage` call over tasks
all with falsy `stop-on-fail` — whose blocking matching tasks are each
eventually observed exiting — ends normally whatever the exit codes. -/
theorem c5_no_stop_on_fail_completes :
    (∀ (cfg : NormConfig) (c : Int), pyTruthy cfg.stop_on_fail = false →
        Task.is_finished cfg (some c) = Except.ok true)
    ∧ (∀ cfg : NormConfig, Task.is_finished cfg Option.none = Except.ok false)
    ∧ ∀ (stage : String) (wT : Nat → List (Option Int)) (sE : Nat → Option Int)
        (tl : List (Nat × NormConfig)),
        (∀ t ∈ tl, pyTruthy (t.2 : NormConfig).stop_on_fail = false) →
        (∀ t ∈ tl.filter (blockMatch stage), ∃ c, firstSome (wT t.1) = some c) →
        (process_stage stage wT sE tl).outcome = PhaseOut.ok := by
  refine ⟨fun cfg c h => by simp [Task.is_finished, h], fun cfg => rfl, ?_⟩
  intro stage wT sE tl h1 h2
  have hwall : ∀ u ∈ tl.filter (blockMatch stage),
      wait_loop u.2 (wT u.1) = Except.ok true := by
    intro u hu
    obtain ⟨c, hc⟩ := h2 u hu
    have hsof := h1 u (List.mem_of_mem_filter hu)
    rw [wait_loop_eq_firstSome, hc]
    simp [Task.is_finished, hsof]
  have hwb : wait_blocking_tasks stage wT tl
      = ((tl.filter (blockMatch stage)).map (fun u => Event.waited u.1), PhaseOut.ok) :=
    wait_go_all_ok wT _ hwall
  have hshut : (shutdown_tasks stage sE tl).2.2 = Option.none :=
    shut_go_no_error sE _ (fun u hu => h1 u (List.mem_of_mem_filter hu)) tl
  simp [process_stage, hwb, hshut]

/-- A blocking task without stop-on-fail, starting at stage `check`. -/
def cfgD : NormConfig :=
  { start_stage := "check", stop_stage := PyVal.str "post-process",
    block := PyVal.bool true, stop_on_fail := PyVal.bool false,
    label := Option.none, command := some (PyVal.str "exit 5"),
    out := Option.none, err := Option.none }

/-- C5 witness: a blocking task without stop-on-fail observed exiting with
code 5 reports finished without raising, and its stage completes normally. -/
theorem c5_no_stop_on_fail_completes_witness :
    Task.is_finished cfgD (some 5) = Except.ok true
    ∧ Task.is_finished cfgD Option.none = Except.ok false
    ∧ (process_stage "check" (fun _ => [some 5]) (fun _ => some 5) [(0, cfgD)]).outcome
        = PhaseOut.ok := by
  refine ⟨c5_no_stop_on_fail_completes.1 cfgD 5 rfl,
    c5_no_stop_on_fail_completes.2.1 cfgD,
    c5_no_stop_on_fail_completes.2.2 "check" (fun _ => [some 5]) (fun _ => some 5)
      [(0, cfgD)] ?_ ?_⟩
  · intro t ht
    simp at ht
    subst ht
    rfl
  · intro t ht
    have hm := List.mem_of_mem_filter ht
    simp at hm
    subst hm
    exact ⟨5, rfl⟩

/-! ## C9: sink path resolution in Task.startup -/

/-- C9: `Task.startup` resolves its sinks as `<stem>.out` / `<stem>.err`
joined onto the host-supplied working directory, the stem being the task's
label when one is set (truthy) and the generated `task_<hash>` name
otherwise, except that an explicit `out`/`err` descriptor path is used as
given; both sinks are opened with mode `wt`, i.e. for writing with any prior
content truncated; and joining a relative name onto a normal directory
yields `<dir>/<name>`. -/
theorem c9_startup_sink_paths (cfg : NormConfig) (wd uid : String) :
    ((∀ l : String, cfg.label = some (PyVal.str l) → l ≠ "" → cfg.out = Option.none →
        (Task.startup_paths cfg wd uid).out_path = os_path_join wd (l ++ ".out"))
      ∧ (cfg.label = Option.none → cfg.out = Option.none →
        (Task.startup_paths cfg wd uid).out_path
          = os_path_join wd ("task_" ++ uid ++ ".out"))
      ∧ (∀ o : String, cfg.out = some (PyVal.str o) →
        (Task.startup_paths cfg wd uid).out_path = os_path_join wd o))
    ∧ ((∀ l : String, cfg.label = some (PyVal.str l) → l ≠ "" → cfg.err = Option.none →
        (Task.startup_paths cfg wd uid).err_path = os_path_join wd (l ++ ".err"))
      ∧ (cfg.label = Option.none → cfg.err = Option.none →
        (Task.startup_paths cfg wd uid).err_path
          = os_path_join wd ("task_" ++ uid ++ ".err"))
      ∧ (∀ o : String, cfg.err = some (PyVal.str o) →
        (Task.startup_paths cfg wd uid).err_path = os_path_join wd o))
    ∧ (Task.startup_paths cfg wd uid).out_mode = "wt"
    ∧ (Task.startup_paths cfg wd uid).err_mode = "wt"
    ∧ ∀ n : String, (n.data.head? == some '/') = false → wd ≠ "" →
        (wd.data.getLast? == some '/') = false →
        os_path_join wd n = wd ++ "/" ++ n := by
  refine ⟨⟨?_, ?_, ?_⟩, ⟨?_, ?_, ?_⟩, rfl, rfl, ?_⟩
  · intro l hl hne hout
    simp [Task.startup_paths, hl, hout, pyTruthy, pyAsStr, bne_iff_ne, hne]
  · intro hl hout
    simp [Task.startup_paths, hl, hout, pyTruthy]
  · intro o hout
    simp [Task.startup_paths, hout, pyAsStr]
  · intro l hl hne herr
    simp [Task.startup_paths, hl, herr, pyTruthy, pyAsStr, bne_iff_ne, hne]
  · intro hl herr
    simp [Task.startup_paths, hl, herr, pyTruthy]
  · intro o herr
    simp [Task.startup_paths, herr, pyAsStr]
  · intro n h1 h2 h3
    simp [os_path_join, h1, h2, h3]

/-- A labelled task used to exercise the path resolution. -/
def cfgE : NormConfig :=
  { start_stage := "prepare", stop_stage := PyVal.str "post-process",
    block := PyVal.bool false, stop_on_fail := PyVal.bool false,
    label := some (PyVal.str "web"), command := some (PyVal.str "echo hi"),
    out := Option.none, err := Option.none }

/-- C9 witness: the labelled task `web` in working directory `art` gets sinks
`art/web.out` and `art/web.err`, both opened with mode `wt`. -/
theorem c9_startup_sink_paths_witness :
    (Task.startup_paths cfgE "art" "7").out_path = "art/web.out"
    ∧ (Task.startup_paths cfgE "art" "7").err_path = "art/web.err"
    ∧ (Task.startup_paths cfgE "art" "7").out_mode = "wt"
    ∧ (Task.startup_paths cfgE "art" "7").err_mode = "wt" := by
  have h := c9_startup_sink_paths cfgE "art" "7"
  refine ⟨(h.1.1 "web" rfl (by decide) rfl).trans ?_,
    (h.2.1.1 "web" rfl (by decide) rfl).trans ?_, h.2.2.1, h.2.2.2.1⟩
  · exact (h.2.2.2.2 ("web" ++ ".out") (by decide) (by decide) (by decide)).trans (by decide)
  · exact (h.2.2.2.2 ("web" ++ ".err") (by decide) (by decide) (by decide)).trans (by decide)

end Shellexec
